import Mathlib

/-
Verification development for the ku3rnel bare-metal AArch64 kernel.

The definitions below are a shallow embedding of the interrupt/exception
subsystem and the MMU page-table construction:

  * `GICDriver` models the state of the GICv2 driver in
    src/arch/arm/core/gic.cpp: the fixed-size handler registry
    (`handlers`, one `InterruptRegistration` slot per line) and the cached
    line count read from GICD_TYPER (`num_irq_lines`).
  * Pointers (handler function pointers, opaque context pointers) are
    modelled as natural numbers, with 0 standing for the C++ `nullptr`.
  * Hardware effects (writes to GICC_EOIR, handler invocations, log
    output, timer re-arm and control-register writes) are modelled as an
    `Event` trace returned by the operation.
  * `GenericTimer` models src/arch/arm/peripherals/timer.cpp.
  * The MMU definitions model the level-2 block-descriptor computation of
    MMU::setup_page_tables and the SCTLR_EL1 read-modify-write of
    MMU::enable_mmu_and_caches in src/arch/arm/core/mmu.cpp.  The linker
    symbols KERNEL_START / KERNEL_END are not part of the sources, so the
    descriptor computation is parameterised over their values.
-/

/-- Observable effects of the modelled operations: an end-of-interrupt
write of an interrupt id to GICC_EOIR, an invocation of a handler
function pointer with an irq number and a context pointer, a diagnostic
kprintf (identified by a numeric site tag), a timer re-arm write to
CNTP_TVAL_EL0, and a timer control write to CNTP_CTL_EL0. -/
inductive Event where
  | eoi (irq : Nat)
  | invoke (handler irq context : Nat)
  | log (site : Nat)
  | rearm (ticks : Nat)
  | setCtl (enable imask : Bool)
  deriving DecidableEq

/-- One slot of the handler registry, mirroring Kernel::InterruptRegistration
in src/include/kernel/interrupt.h (handler pointer, context pointer,
is_registered flag). -/
structure InterruptRegistration where
  handler : Nat
  context : Nat
  is_registered : Bool
  deriving DecidableEq

/-- Kernel::MAX_IRQS from src/include/kernel/interrupt.h. -/
def MAX_IRQS : Nat := 256

/-- State of the GIC driver (src/arch/arm/core/gic.cpp): the handler
registry and the cached number of implemented interrupt lines.  The two
MMIO base addresses only select which hardware registers the MMIO
helpers touch; hardware writes are modelled as `Event`s instead. -/
structure GICDriver where
  handlers : Nat → InterruptRegistration
  num_irq_lines : Nat

/-- State established by the GICDriver constructor (gic.cpp lines 29-32):
kmemset zeroes the whole handler array, and num_irq_lines has its
in-class initializer 0. -/
def GICDriver.construct : GICDriver :=
  { handlers := fun _ => { handler := 0, context := 0, is_registered := false }
    num_irq_lines := 0 }

/-- GICDriver::register_handler (gic.cpp lines 140-154).  Returns the
C++ return value together with the updated driver state. -/
def GICDriver.register_handler (s : GICDriver) (irq_num handler context : Nat) :
    Bool × GICDriver :=
  if MAX_IRQS ≤ irq_num then (false, s)
  else if (s.handlers irq_num).is_registered = true then (false, s)
  else
    (true,
      { s with handlers := fun j =>
          if j = irq_num then { handler := handler, context := context, is_registered := true }
          else s.handlers j })

/-- GICDriver::unregister_handler (gic.cpp lines 156-164): clears the
is_registered flag and nulls the handler and context pointers. -/
def GICDriver.unregister_handler (s : GICDriver) (irq_num : Nat) :
    Bool × GICDriver :=
  if MAX_IRQS ≤ irq_num then (false, s)
  else if (s.handlers irq_num).is_registered = false then (false, s)
  else
    (true,
      { s with handlers := fun j =>
          if j = irq_num then { handler := 0, context := 0, is_registered := false }
          else s.handlers j })

/-- GICDriver::end_of_interrupt (gic.cpp lines 132-138): a single write
of the irq number to GICC_EOIR. -/
def GICDriver.end_of_interrupt (irq_num : Nat) : List Event :=
  [Event.eoi irq_num]

/-- Body of GICDriver::dispatch_interrupt (gic.cpp lines 166-228) after
the interrupt id has been extracted from the IAR value.  Branches, in
source order: the spurious/special range 1020-1023 (EOI written unless
the id is 1023); ids at or above the TYPER-reported line count; ids at
or above the handler-table capacity; otherwise invoke the registered
handler if the slot is registered with a non-null handler pointer, else
log, and finally EOI exactly when the slot is unregistered or its
handler pointer is null. -/
def gic_dispatch_by_id (s : GICDriver) (irq_id : Nat) : List Event :=
  if 1020 ≤ irq_id ∧ irq_id ≤ 1023 then
    Event.log 1 :: (if irq_id ≠ 1023 then [Event.eoi irq_id] else [])
  else if s.num_irq_lines ≤ irq_id ∧ irq_id < 1020 then
    [Event.log 2, Event.eoi irq_id]
  else if MAX_IRQS ≤ irq_id then
    [Event.log 3, Event.eoi irq_id]
  else
    (if (s.handlers irq_id).is_registered = true ∧ (s.handlers irq_id).handler ≠ 0 then
      [Event.invoke (s.handlers irq_id).handler irq_id (s.handlers irq_id).context]
    else
      [Event.log 4]) ++
    (if ¬ (s.handlers irq_id).is_registered = true ∨ (s.handlers irq_id).handler = 0 then
      [Event.eoi irq_id]
    else [])

/-- GICDriver::dispatch_interrupt (gic.cpp lines 166-228): the dummy irq
argument is ignored; the interrupt id is the low 10 bits of the value
read from GICC_IAR. -/
def GICDriver.dispatch_interrupt (s : GICDriver) (iar_val : Nat) : List Event :=
  gic_dispatch_by_id s (iar_val &&& 0x3FF)

/-- Number of end-of-interrupt writes for a given irq id in a trace. -/
def countEoi : List Event → Nat → Nat
  | [], _ => 0
  | Event.eoi j :: rest, irq => (if j = irq then 1 else 0) + countEoi rest irq
  | _ :: rest, irq => countEoi rest irq

/-- Number of handler invocations (of any handler) in a trace. -/
def countInvoke : List Event → Nat
  | [] => 0
  | Event.invoke _ _ _ :: rest => 1 + countInvoke rest
  | _ :: rest => countInvoke rest

/-- Number of invocations of a specific handler with a specific irq
number and context in a trace. -/
def countInvokeOf : List Event → Nat → Nat → Nat → Nat
  | [], _, _, _ => 0
  | Event.invoke h i c :: rest, h0, i0, c0 =>
      (if h = h0 ∧ i = i0 ∧ c = c0 then 1 else 0) + countInvokeOf rest h0 i0 c0
  | _ :: rest, h0, i0, c0 => countInvokeOf rest h0 i0 c0

/-- Number of timer re-arm writes in a trace. -/
def countRearm : List Event → Nat
  | [] => 0
  | Event.rearm _ :: rest => 1 + countRearm rest
  | _ :: rest => countRearm rest

/-- Number of disable-and-mask control writes (set_control(false, true))
in a trace. -/
def countDisableMask : List Event → Nat
  | [] => 0
  | Event.setCtl false true :: rest => 1 + countDisableMask rest
  | _ :: rest => countDisableMask rest

/-- Claim C4: after a successful register_handler(line, h1, c1), a second
register_handler(line, h2, c2) without an intervening unregister returns
false, leaves the driver state unchanged, and the slot for that line
still holds exactly (h1, c1, registered). -/
theorem gic_register_no_silent_overwrite (s : GICDriver) (line h1 c1 h2 c2 : Nat)
    (hfst : (s.register_handler line h1 c1).fst = true) :
    ((s.register_handler line h1 c1).snd.register_handler line h2 c2).fst = false ∧
    ((s.register_handler line h1 c1).snd.register_handler line h2 c2).snd
      = (s.register_handler line h1 c1).snd ∧
    ((s.register_handler line h1 c1).snd.register_handler line h2 c2).snd.handlers line
      = { handler := h1, context := c1, is_registered := true } := by
  by_cases hb : MAX_IRQS ≤ line
  · rw [GICDriver.register_handler, if_pos hb] at hfst
    simp at hfst
  · by_cases hr : (s.handlers line).is_registered = true
    · rw [GICDriver.register_handler, if_neg hb, if_pos hr] at hfst
      simp at hfst
    · have hs1 : (s.register_handler line h1 c1).snd
          = { s with handlers := fun j =>
                if j = line then { handler := h1, context := c1, is_registered := true }
                else s.handlers j } := by
        rw [GICDriver.register_handler, if_neg hb, if_neg hr]
      have hslot : (s.register_handler line h1 c1).snd.handlers line
          = { handler := h1, context := c1, is_registered := true } := by
        rw [hs1]; simp
      have hreg2 : ((s.register_handler line h1 c1).snd.handlers line).is_registered = true := by
        rw [hslot]
      refine ⟨?_, ?_, ?_⟩
      · rw [GICDriver.register_handler, if_neg hb, if_pos hreg2]
      · rw [GICDriver.register_handler, if_neg hb, if_pos hreg2]
      · rw [GICDriver.register_handler, if_neg hb, if_pos hreg2]
        exact hslot

/-- Witness for C4: concrete instantiation at line 30 on the freshly
constructed driver. -/
theorem gic_register_no_silent_overwrite_witness :
    (GICDriver.construct.register_handler 30 5 6).fst = true ∧
    ((GICDriver.construct.register_handler 30 5 6).snd.register_handler 30 7 8).fst = false ∧
    ((GICDriver.construct.register_handler 30 5 6).snd.register_handler 30 7 8).snd.handlers 30
      = { handler := 5, context := 6, is_registered := true } :=
  ⟨by decide,
   (gic_register_no_silent_overwrite GICDriver.construct 30 5 6 7 8 (by decide)).1,
   (gic_register_no_silent_overwrite GICDriver.construct 30 5 6 7 8 (by decide)).2.2⟩

/-- Claim C5: for any line below MAX_IRQS, registering a handler on the
freshly constructed driver and then unregistering it restores the slot
to the initial never-registered state (null handler, null context, not
registered). -/
theorem gic_register_unregister_roundtrip (line h c : Nat) (hline : line < MAX_IRQS) :
    (((GICDriver.construct.register_handler line h c).snd.unregister_handler line).snd).handlers line
      = GICDriver.construct.handlers line := by
  have hb : ¬ MAX_IRQS ≤ line := Nat.not_le.mpr hline
  have hr : ¬ (GICDriver.construct.handlers line).is_registered = true := by
    simp [GICDriver.construct]
  have hs1 : (GICDriver.construct.register_handler line h c).snd
      = { GICDriver.construct with handlers := fun j =>
            if j = line then { handler := h, context := c, is_registered := true }
            else GICDriver.construct.handlers j } := by
    rw [GICDriver.register_handler, if_neg hb, if_neg hr]
  have hreg : ¬ ((GICDriver.construct.register_handler line h c).snd.handlers line).is_registered
      = false := by
    rw [hs1]; simp
  rw [GICDriver.unregister_handler, if_neg hb, if_neg hreg]
  simp [GICDriver.construct]

/-- Witness for C5: concrete instantiation at line 30. -/
theorem gic_register_unregister_roundtrip_witness :
    30 < MAX_IRQS ∧
    (((GICDriver.construct.register_handler 30 5 6).snd.unregister_handler 30).snd).handlers 30
      = GICDriver.construct.handlers 30 :=
  ⟨by decide, gic_register_unregister_roundtrip 30 5 6 (by decide)⟩

/-- Claim C1: for an interrupt id (low 10 bits of the IAR read) below both
the TYPER-reported line count and MAX_IRQS: if the slot holds a
registered, non-null handler, dispatch_interrupt invokes exactly that
handler exactly once with that id and the stored context and performs no
end-of-interrupt write itself; if no handler is registered (slot
unregistered, or a null handler pointer), dispatch_interrupt performs
the end-of-interrupt write for that id exactly once and invokes no
handler. -/
theorem gic_dispatch_valid_line (s : GICDriver) (iar_val : Nat)
    (hline : iar_val &&& 0x3FF < s.num_irq_lines)
    (hmax : iar_val &&& 0x3FF < MAX_IRQS) :
    (((s.handlers (iar_val &&& 0x3FF)).is_registered = true ∧
        (s.handlers (iar_val &&& 0x3FF)).handler ≠ 0) →
      countInvokeOf (s.dispatch_interrupt iar_val)
          (s.handlers (iar_val &&& 0x3FF)).handler (iar_val &&& 0x3FF)
          (s.handlers (iar_val &&& 0x3FF)).context = 1 ∧
      countInvoke (s.dispatch_interrupt iar_val) = 1 ∧
      countEoi (s.dispatch_interrupt iar_val) (iar_val &&& 0x3FF) = 0) ∧
    (¬ ((s.handlers (iar_val &&& 0x3FF)).is_registered = true ∧
        (s.handlers (iar_val &&& 0x3FF)).handler ≠ 0) →
      countEoi (s.dispatch_interrupt iar_val) (iar_val &&& 0x3FF) = 1 ∧
      countInvoke (s.dispatch_interrupt iar_val) = 0) := by
  simp only [GICDriver.dispatch_interrupt]
  generalize hid : iar_val &&& 0x3FF = id at *
  have h256 : id < 256 := by simpa [MAX_IRQS] using hmax
  rw [gic_dispatch_by_id,
    if_neg (by omega : ¬ (1020 ≤ id ∧ id ≤ 1023)),
    if_neg (fun h => absurd hline (Nat.not_lt.mpr h.1)),
    if_neg (Nat.not_le.mpr hmax)]
  constructor
  · intro hreg
    rw [if_pos hreg,
      if_neg (fun hor => hor.elim (fun hn => hn hreg.1) (fun he => hreg.2 he))]
    simp [countInvokeOf, countInvoke, countEoi]
  · intro hnreg
    have hor : ¬ (s.handlers id).is_registered = true ∨ (s.handlers id).handler = 0 := by
      rcases not_and_or.mp hnreg with h | h
      · exact Or.inl h
      · exact Or.inr (not_not.mp h)
    rw [if_neg hnreg, if_pos hor]
    simp [countEoi, countInvoke]

/-- Witness for C1: driver reporting 64 lines with a handler registered on
line 30, dispatched with a hardware-reported id of 30. -/
theorem gic_dispatch_valid_line_witness :
    (30 &&& 0x3FF) < (GICDriver.mk (fun _ => ⟨0, 0, false⟩) 64).num_irq_lines ∧
    countInvokeOf
      ((((GICDriver.mk (fun _ => ⟨0, 0, false⟩) 64).register_handler 30 5 6).snd).dispatch_interrupt 30)
      5 (30 &&& 0x3FF) 6 = 1 ∧
    countEoi
      ((((GICDriver.mk (fun _ => ⟨0, 0, false⟩) 64).register_handler 30 5 6).snd).dispatch_interrupt 30)
      (30 &&& 0x3FF) = 0 := by
  have h := gic_dispatch_valid_line
    (((GICDriver.mk (fun _ => ⟨0, 0, false⟩) 64).register_handler 30 5 6).snd) 30
    (by decide) (by decide)
  have h2 := h.1 (by decide)
  exact ⟨by decide, by simpa using h2.1, h2.2.2⟩

/-- Claim C3: for an interrupt id in the reserved range 1020-1023 (read
from the IAR), dispatch_interrupt invokes no handler; it writes no
end-of-interrupt for the "no pending interrupt" sentinel 1023, and
writes the end-of-interrupt exactly once for ids 1020-1022. -/
theorem gic_dispatch_spurious_range (s : GICDriver) (iar_val : Nat)
    (hsp : 1020 ≤ iar_val &&& 0x3FF) :
    countInvoke (s.dispatch_interrupt iar_val) = 0 ∧
    (iar_val &&& 0x3FF = 1023 →
      countEoi (s.dispatch_interrupt iar_val) (iar_val &&& 0x3FF) = 0) ∧
    (iar_val &&& 0x3FF ≠ 1023 →
      countEoi (s.dispatch_interrupt iar_val) (iar_val &&& 0x3FF) = 1) := by
  have hle : iar_val &&& 0x3FF ≤ 1023 := Nat.and_le_right
  simp only [GICDriver.dispatch_interrupt]
  generalize hid : iar_val &&& 0x3FF = id at *
  rw [gic_dispatch_by_id, if_pos ⟨hsp, hle⟩]
  by_cases h23 : id = 1023
  · subst h23
    rw [if_neg (fun h => h rfl)]
    simp [countEoi, countInvoke]
  · rw [if_pos h23]
    simp [countEoi, countInvoke, h23]

/-- Witness for C3: ids 1022 (EOI written once) and 1023 (no EOI), on the
freshly constructed driver. -/
theorem gic_dispatch_spurious_range_witness :
    countInvoke (GICDriver.construct.dispatch_interrupt 1022) = 0 ∧
    countEoi (GICDriver.construct.dispatch_interrupt 1022) (1022 &&& 0x3FF) = 1 ∧
    countEoi (GICDriver.construct.dispatch_interrupt 1023) (1023 &&& 0x3FF) = 0 :=
  ⟨(gic_dispatch_spurious_range GICDriver.construct 1022 (by decide)).1,
   (gic_dispatch_spurious_range GICDriver.construct 1022 (by decide)).2.2 (by decide),
   (gic_dispatch_spurious_range GICDriver.construct 1023 (by decide)).2.1 (by decide)⟩

/-- State of the generic timer (src/arch/arm/peripherals/timer.cpp):
user handler/context pointers, the assigned interrupt line, and the
stored one-shot reload value. -/
structure GenericTimer where
  user_handler : Nat
  user_context : Nat
  irq_number : Nat
  current_interval_ticks : Nat
  deriving DecidableEq

/-- EL1 physical timer PPI line (timer.cpp line 17). -/
def EL1_PHYSICAL_TIMER_IRQ : Nat := 30

/-- State established by the GenericTimer constructor (timer.cpp lines
34-37): null handler and context, irq line 30, zero interval. -/
def GenericTimer.construct : GenericTimer :=
  { user_handler := 0, user_context := 0
    irq_number := EL1_PHYSICAL_TIMER_IRQ, current_interval_ticks := 0 }

/-- Address of the C-style trampoline generic_timer_irq_trampoline
(timer.cpp lines 25-31); a function's address, hence non-null. -/
def generic_timer_irq_trampoline_addr : Nat := 1

/-- Address of the static global_el1_timer_instance (timer.cpp line 22),
passed as the registration context; a static object's address, hence
non-null. -/
def global_el1_timer_instance_addr : Nat := 2

/-- How a run of GenericTimer::init ends: the early `return` taken when
frequency_hz is zero, a call into Kernel::panic (site 1: no interrupt
controller, site 2: GIC registration failed, site 3: CNTFRQ_EL0 reads
zero), or normal completion. -/
inductive InitOutcome where
  | earlyReturn
  | panicked (site : Nat)
  | ok
  deriving DecidableEq

/-- Result of GenericTimer::init: how the call ended, the timer state it
leaves behind, and the GIC driver state it leaves behind (None when no
interrupt controller is available). -/
structure InitResult where
  outcome : InitOutcome
  timer : GenericTimer
  gic : Option GICDriver

/-- GenericTimer::init (timer.cpp lines 60-111).  Control flow in source
order: reject frequency 0 with a log and a plain return (before the
handler/context members are assigned); panic if no interrupt controller
is available; register the trampoline (context = the instance pointer)
with the controller and panic if that fails; read CNTFRQ_EL0 and panic
if it is zero; compute ticks = counter_freq / frequency_hz, clamping a
zero quotient to 1; store the interval (set_interval_ticks) and enable
the timer and its interrupt line.  The hardware counter frequency is an
input because it is read from the CNTFRQ_EL0 register. -/
def GenericTimer.init (t : GenericTimer) (frequency_hz handler context : Nat)
    (ic : Option GICDriver) (counter_freq : Nat) : InitResult :=
  if frequency_hz = 0 then
    { outcome := InitOutcome.earlyReturn, timer := t, gic := ic }
  else
    let t1 := { t with user_handler := handler, user_context := context }
    match ic with
    | none => { outcome := InitOutcome.panicked 1, timer := t1, gic := none }
    | some g =>
      let reg := g.register_handler t1.irq_number
        generic_timer_irq_trampoline_addr global_el1_timer_instance_addr
      if reg.fst = false then
        { outcome := InitOutcome.panicked 2, timer := t1, gic := some reg.snd }
      else if counter_freq = 0 then
        { outcome := InitOutcome.panicked 3, timer := t1, gic := some reg.snd }
      else
        let ticks0 := counter_freq / frequency_hz
        let ticks := if ticks0 = 0 then 1 else ticks0
        { outcome := InitOutcome.ok
          timer := { t1 with current_interval_ticks := ticks }
          gic := some reg.snd }

/-- GenericTimer::handle_interrupt (timer.cpp lines 121-144): re-arm the
one-shot timer with the stored interval when it is positive, otherwise
disable and mask the timer; then invoke the user handler if it is
non-null; then signal end-of-interrupt through the controller when one
is available. -/
def GenericTimer.handle_interrupt (t : GenericTimer) (ic : Option GICDriver) :
    List Event :=
  (if 0 < t.current_interval_ticks then [Event.rearm t.current_interval_ticks]
   else [Event.setCtl false true]) ++
  (if t.user_handler ≠ 0 then
    [Event.invoke t.user_handler t.irq_number t.user_context]
   else []) ++
  (match ic with
   | some _ => [Event.eoi t.irq_number]
   | none => [])

/-- Counterexample to claim C6: GenericTimer::init called with
frequency_hz = 0 takes the early return, not the panic route — it hands
control back to the caller with the timer unconfigured. -/
theorem timer_init_zero_freq_counterexample :
    (GenericTimer.construct.init 0 7 8 (some GICDriver.construct) 1000000).outcome
      = InitOutcome.earlyReturn ∧
    (GenericTimer.construct.init 0 7 8 (some GICDriver.construct) 1000000).timer
      = GenericTimer.construct := by
  constructor <;> rfl

/-- Claim C6 as amended: GenericTimer::init called with frequency_hz = 0
logs a diagnostic and returns control to the caller, leaving the timer
state (handler, context, interval) completely unchanged and the
controller untouched; it does not route to the panic halt routine. -/
theorem timer_init_zero_freq_returns (t : GenericTimer) (handler context : Nat)
    (ic : Option GICDriver) (counter_freq : Nat) :
    t.init 0 handler context ic counter_freq
      = { outcome := InitOutcome.earlyReturn, timer := t, gic := ic } := by
  rw [GenericTimer.init, if_pos rfl]

/-- Counterexample to claim C7: in a state with a zero stored reload
value and a non-null user handler, GenericTimer::handle_interrupt still
invokes the user callback (once), contrary to the claim that it must
not. -/
theorem timer_zero_interval_counterexample :
    countInvoke
      ((GenericTimer.mk 5 0 30 0).handle_interrupt (some GICDriver.construct)) = 1 := by
  decide

/-- Claim C7 as amended: when the stored reload value is zero,
GenericTimer::handle_interrupt disables and masks the timer (exactly one
set_control(false, true) write) and performs no re-arm write, but it
still invokes the user callback exactly once whenever the stored handler
is non-null (and not at all when it is null), and still signals
end-of-interrupt when a controller is available. -/
theorem timer_zero_interval_disables (t : GenericTimer) (ic : Option GICDriver)
    (hz : t.current_interval_ticks = 0) :
    countDisableMask (t.handle_interrupt ic) = 1 ∧
    countRearm (t.handle_interrupt ic) = 0 ∧
    countInvoke (t.handle_interrupt ic) = (if t.user_handler ≠ 0 then 1 else 0) ∧
    (ic ≠ none → countEoi (t.handle_interrupt ic) t.irq_number = 1) := by
  simp only [GenericTimer.handle_interrupt, hz]
  rw [if_neg (lt_irrefl 0)]
  by_cases hh : t.user_handler ≠ 0
  · rw [if_pos hh]
    cases ic with
    | none => simp [countDisableMask, countRearm, countInvoke, countEoi, hh]
    | some g => simp [countDisableMask, countRearm, countInvoke, countEoi, hh]
  · rw [if_neg hh]
    cases ic with
    | none => simp [countDisableMask, countRearm, countInvoke, countEoi, hh]
    | some g => simp [countDisableMask, countRearm, countInvoke, countEoi, hh]

/-- Witness for amended C7: timer with handler pointer 5, interval 0. -/
theorem timer_zero_interval_disables_witness :
    countDisableMask ((GenericTimer.mk 5 0 30 0).handle_interrupt (some GICDriver.construct)) = 1 ∧
    countRearm ((GenericTimer.mk 5 0 30 0).handle_interrupt (some GICDriver.construct)) = 0 ∧
    countEoi ((GenericTimer.mk 5 0 30 0).handle_interrupt (some GICDriver.construct)) 30 = 1 := by
  have h := timer_zero_interval_disables (GenericTimer.mk 5 0 30 0)
    (some GICDriver.construct) (by decide)
  exact ⟨h.1, h.2.1, h.2.2.2 (by simp)⟩

/-- Claim C8: for a nonzero requested frequency and a nonzero hardware
counter frequency, on the path where a controller is present and
registration succeeds, GenericTimer::init completes and programs a
reload value of counter_freq / frequency_hz (integer division), with a
zero quotient clamped to 1. -/
theorem timer_init_reload_value (t : GenericTimer) (f handler context counter_freq : Nat)
    (g : GICDriver) (hf : f ≠ 0) (hcf : counter_freq ≠ 0)
    (hreg : (g.register_handler t.irq_number
        generic_timer_irq_trampoline_addr global_el1_timer_instance_addr).fst = true) :
    (t.init f handler context (some g) counter_freq).outcome = InitOutcome.ok ∧
    (t.init f handler context (some g) counter_freq).timer.current_interval_ticks
      = (if counter_freq / f = 0 then 1 else counter_freq / f) := by
  rw [GenericTimer.init, if_neg hf]
  simp only
  rw [hreg]
  simp only [Bool.true_eq_false, if_false, if_neg hcf]
  exact ⟨by trivial, by trivial⟩

/-- Witness for C8 (the end-to-end scenario of the spec): 100 Hz against
a 1,000,000 Hz counter yields exactly 10,000 ticks. -/
theorem timer_init_reload_value_witness :
    (GenericTimer.construct.init 100 7 8 (some GICDriver.construct) 1000000).outcome
      = InitOutcome.ok ∧
    (GenericTimer.construct.init 100 7 8 (some GICDriver.construct) 1000000).timer.current_interval_ticks
      = 10000 := by
  have h := timer_init_reload_value GenericTimer.construct 100 7 8 1000000
    GICDriver.construct (by decide) (by decide) (by decide)
  exact ⟨h.1, by rw [h.2]; decide⟩

/-- Reference to an interrupt controller object, as returned (by address)
from Kernel::get_interrupt_controller. -/
inductive ControllerRef where
  | gicGlobal
  deriving DecidableEq

/-- Kernel::get_interrupt_controller (gic.cpp lines 17-19): it
unconditionally returns the address of the statically allocated
g_gic_driver instance (gic.cpp line 14).  A static object's address is
never null, so the result is always `some`. -/
def get_interrupt_controller : Option ControllerRef := some ControllerRef.gicGlobal

/-- The body of c_irq_handler (exceptions.cpp lines 96-111) as a function
of the controller pointer it obtained: with a non-null controller it
delegates to dispatch_interrupt (passing a dummy irq of 0 and letting
the driver read the IAR, here the `iar_val` input); with a null
controller it only logs a warning. -/
def c_irq_handler_with (ic : Option GICDriver) (iar_val : Nat) : List Event :=
  match ic with
  | some g => g.dispatch_interrupt iar_val
  | none => [Event.log 9]

/-- c_irq_handler (exceptions.cpp lines 96-111): fetches the controller
through Kernel::get_interrupt_controller and branches on it; `g` is the
state of the global GIC driver the returned pointer refers to. -/
def c_irq_handler (g : GICDriver) (iar_val : Nat) : List Event :=
  match get_interrupt_controller with
  | some _ => c_irq_handler_with (some g) iar_val
  | none => c_irq_handler_with none iar_val

/-- Counterexample to claim C9: get_interrupt_controller never returns
null — there is no pre-installation state in which it does, because it
returns the address of a statically allocated driver object. -/
theorem gic_accessor_never_null : get_interrupt_controller ≠ none := by
  decide

/-- Claim C9 as amended: get_interrupt_controller unconditionally returns
the (non-null) address of the static GIC driver instance, so
c_irq_handler always delegates to dispatch_interrupt; its guard branch
for a null controller — which only logs a warning and performs no
end-of-interrupt write and no handler dispatch — exists but is
unreachable through the accessor. -/
theorem irq_vector_accessor_and_null_guard :
    get_interrupt_controller = some ControllerRef.gicGlobal ∧
    (∀ iar_val : Nat, c_irq_handler_with none iar_val = [Event.log 9] ∧
      (∀ j, countEoi (c_irq_handler_with none iar_val) j = 0) ∧
      countInvoke (c_irq_handler_with none iar_val) = 0) ∧
    (∀ (g : GICDriver) (iar_val : Nat),
      c_irq_handler g iar_val = g.dispatch_interrupt iar_val) := by
  refine ⟨rfl, fun iar_val => ⟨rfl, fun j => ?_, ?_⟩, fun g iar_val => rfl⟩
  · simp [c_irq_handler_with, countEoi]
  · simp [c_irq_handler_with, countInvoke]

/-- PAGE_TABLE_ENTRIES from src/arch/arm/core/mmu.h. -/
def PAGE_TABLE_ENTRIES : Nat := 512

/-- PAGE_SIZE_2MB from mmu.h. -/
def PAGE_SIZE_2MB : Nat := 2 * 1024 * 1024

/-- PAGE_SIZE_1GB from mmu.h. -/
def PAGE_SIZE_1GB : Nat := 1 * 1024 * 1024 * 1024

/-- RPI4_PERIPHERAL_BASE_PHYS from mmu.cpp line 14. -/
def RPI4_PERIPHERAL_BASE_PHYS : Nat := 0xFE000000

/-- RPI4_PERIPHERAL_END_PHYS from mmu.cpp line 15. -/
def RPI4_PERIPHERAL_END_PHYS : Nat := 0xFFFFFFFF

/-- PTE_VALID (mmu.h): bit 0. -/
def PTE_VALID : Nat := 1 <<< 0

/-- PTE_AF (mmu.h): access flag, bit 10. -/
def PTE_AF : Nat := 1 <<< 10

/-- PTE_SH_INNER_SHAREABLE (mmu.h): shareability 0b11 in bits 9:8. -/
def PTE_SH_INNER_SHAREABLE : Nat := 3 <<< 8

/-- PTE_ATTR_INDX (mmu.h): MAIR index in bits 4:2. -/
def PTE_ATTR_INDX (idx : Nat) : Nat := (idx &&& 7) <<< 2

/-- MAIR_IDX_DEVICE_NGNRNE (mmu.h). -/
def MAIR_IDX_DEVICE_NGNRNE : Nat := 0

/-- MAIR_IDX_NORMAL_C (mmu.h). -/
def MAIR_IDX_NORMAL_C : Nat := 2

/-- PTE_AP_EL1_RW_EL0_NONE (mmu.h): AP encoding 0b00 in bits 7:6. -/
def PTE_AP_EL1_RW_EL0_NONE : Nat := 0 <<< 6

/-- PTE_PXN (mmu.h): privileged execute never, bit 53. -/
def PTE_PXN : Nat := 1 <<< 53

/-- PTE_UXN (mmu.h): unprivileged execute never, bit 54. -/
def PTE_UXN : Nat := 1 <<< 54

/-- All-ones mask of the C++ uint64_t carrier type, used to express the
source's bitwise complement `~PTE_PXN` as `UINT64_MAX ^^^ PTE_PXN`. -/
def UINT64_MAX : Nat := 2 ^ 64 - 1

/-- Flag word accumulated by the device/peripheral branch of the L2 loop
(mmu.cpp lines 64-68): base flags, device MAIR index, EL1-RW access,
PXN and UXN. -/
def FLAGS_DEVICE : Nat :=
  PTE_VALID ||| PTE_AF ||| PTE_SH_INNER_SHAREABLE |||
  PTE_ATTR_INDX MAIR_IDX_DEVICE_NGNRNE ||| PTE_AP_EL1_RW_EL0_NONE |||
  PTE_PXN ||| PTE_UXN

/-- Flag word accumulated by the kernel-image branch (mmu.cpp lines
69-76): base flags, normal-cacheable MAIR index, EL1-RW access, PXN
cleared (privileged execute allowed), UXN set. -/
def FLAGS_KERNEL : Nat :=
  ((PTE_VALID ||| PTE_AF ||| PTE_SH_INNER_SHAREABLE |||
    PTE_ATTR_INDX MAIR_IDX_NORMAL_C ||| PTE_AP_EL1_RW_EL0_NONE)
    &&& (UINT64_MAX ^^^ PTE_PXN)) ||| PTE_UXN

/-- Flag word accumulated by the general-RAM branch (mmu.cpp lines
77-81): base flags, normal-cacheable MAIR index, EL1-RW access, PXN and
UXN. -/
def FLAGS_RAM : Nat :=
  PTE_VALID ||| PTE_AF ||| PTE_SH_INNER_SHAREABLE |||
  PTE_ATTR_INDX MAIR_IDX_NORMAL_C ||| PTE_AP_EL1_RW_EL0_NONE |||
  PTE_PXN ||| PTE_UXN

/-- Classification and flag computation of the first L2 loop
(mmu.cpp lines 58-83), parameterised over the linker symbols
KERNEL_START and KERNEL_END (which are not part of the sources): a 2 MiB
block is device memory when it lies entirely inside the peripheral
window, kernel image when its first or last byte falls inside
[KERNEL_START, KERNEL_END), and general RAM otherwise. -/
def l2_block_flags (kernel_start kernel_end current_pa : Nat) : Nat :=
  if RPI4_PERIPHERAL_BASE_PHYS ≤ current_pa ∧
      current_pa + PAGE_SIZE_2MB - 1 ≤ RPI4_PERIPHERAL_END_PHYS then
    FLAGS_DEVICE
  else if (kernel_start ≤ current_pa ∧ current_pa < kernel_end) ∨
      (kernel_start ≤ current_pa + PAGE_SIZE_2MB - 1 ∧
        current_pa + PAGE_SIZE_2MB - 1 < kernel_end) then
    FLAGS_KERNEL
  else
    FLAGS_RAM

/-- Classification and flag computation of the second L2 loop
(mmu.cpp lines 88-103): device memory or general RAM (the kernel branch
does not appear for the second gigabyte). -/
def l2_block_flags_second_gb (current_pa : Nat) : Nat :=
  if RPI4_PERIPHERAL_BASE_PHYS ≤ current_pa ∧
      current_pa + PAGE_SIZE_2MB - 1 ≤ RPI4_PERIPHERAL_END_PHYS then
    FLAGS_DEVICE
  else
    FLAGS_RAM

/-- Entry i of l2_page_table_0 as written by setup_page_tables (mmu.cpp
line 83): the block's physical address (equal to its virtual address)
OR'd with the accumulated flags. -/
def l2_page_table_0_entry (kernel_start kernel_end i : Nat) : Nat :=
  i * PAGE_SIZE_2MB ||| l2_block_flags kernel_start kernel_end (i * PAGE_SIZE_2MB)

/-- Entry i of l2_page_table_1 as written by setup_page_tables (mmu.cpp
line 103): base of the second gigabyte plus the block offset, OR'd with
the accumulated flags. -/
def l2_page_table_1_entry (i : Nat) : Nat :=
  (PAGE_SIZE_1GB + i * PAGE_SIZE_2MB) |||
    l2_block_flags_second_gb (PAGE_SIZE_1GB + i * PAGE_SIZE_2MB)

/-- Output address encoded by a 2 MiB block descriptor: bits 47:21 of the
descriptor, scaled back to an address (VMSAv8-64 level-2 block format,
as cited in mmu.h lines 55-57). -/
def block_output_address (descriptor : Nat) : Nat :=
  descriptor / 2 ^ 21 % 2 ^ 27 * 2 ^ 21

set_option maxRecDepth 8192 in
/-- The three branch flag words never disturb descriptor bits 47:21 of a
2 MiB-aligned block address below 2 GiB (device flags). -/
theorem block_oa_flags_device :
    ∀ q < 1024, block_output_address (q * PAGE_SIZE_2MB ||| FLAGS_DEVICE)
      = q * PAGE_SIZE_2MB := by
  decide

set_option maxRecDepth 8192 in
/-- Companion to `block_oa_flags_device` for the kernel-image flags. -/
theorem block_oa_flags_kernel :
    ∀ q < 1024, block_output_address (q * PAGE_SIZE_2MB ||| FLAGS_KERNEL)
      = q * PAGE_SIZE_2MB := by
  decide

set_option maxRecDepth 8192 in
/-- Companion to `block_oa_flags_device` for the general-RAM flags. -/
theorem block_oa_flags_ram :
    ∀ q < 1024, block_output_address (q * PAGE_SIZE_2MB ||| FLAGS_RAM)
      = q * PAGE_SIZE_2MB := by
  decide

/-- The first-gigabyte flag computation returns one of the three branch
flag words. -/
theorem l2_block_flags_cases (kernel_start kernel_end current_pa : Nat) :
    l2_block_flags kernel_start kernel_end current_pa = FLAGS_DEVICE ∨
    l2_block_flags kernel_start kernel_end current_pa = FLAGS_KERNEL ∨
    l2_block_flags kernel_start kernel_end current_pa = FLAGS_RAM := by
  rw [l2_block_flags]
  split
  · exact Or.inl rfl
  · split
    · exact Or.inr (Or.inl rfl)
    · exact Or.inr (Or.inr rfl)

/-- The second-gigabyte flag computation returns one of its two branch
flag words. -/
theorem l2_block_flags_second_gb_cases (current_pa : Nat) :
    l2_block_flags_second_gb current_pa = FLAGS_DEVICE ∨
    l2_block_flags_second_gb current_pa = FLAGS_RAM := by
  rw [l2_block_flags_second_gb]
  split
  · exact Or.inl rfl
  · exact Or.inr rfl

/-- Claim C2: for every 2 MiB block index i < 512 and any values of the
linker symbols KERNEL_START and KERNEL_END, the descriptors written into
both second-level tables carry an output address equal to the block's
own address (identity mapping), in all classification branches — the
OR'd attribute flags never alter the output-address bits. -/
theorem mmu_identity_map_output_address (kernel_start kernel_end i : Nat)
    (hi : i < PAGE_TABLE_ENTRIES) :
    block_output_address (l2_page_table_0_entry kernel_start kernel_end i)
      = i * PAGE_SIZE_2MB ∧
    block_output_address (l2_page_table_1_entry i)
      = PAGE_SIZE_1GB + i * PAGE_SIZE_2MB := by
  have hi512 : i < 512 := by
    have h : PAGE_TABLE_ENTRIES = 512 := rfl
    omega
  have hi1024 : i < 1024 := by omega
  constructor
  · rw [l2_page_table_0_entry]
    rcases l2_block_flags_cases kernel_start kernel_end (i * PAGE_SIZE_2MB) with h | h | h
    · rw [h]; exact block_oa_flags_device i hi1024
    · rw [h]; exact block_oa_flags_kernel i hi1024
    · rw [h]; exact block_oa_flags_ram i hi1024
  · have hpa : PAGE_SIZE_1GB + i * PAGE_SIZE_2MB = (512 + i) * PAGE_SIZE_2MB := by
      have h1 : PAGE_SIZE_1GB = 1073741824 := rfl
      have h2 : PAGE_SIZE_2MB = 2097152 := rfl
      rw [h1, h2]; ring
    rw [l2_page_table_1_entry, hpa]
    have hq : 512 + i < 1024 := by omega
    rcases l2_block_flags_second_gb_cases ((512 + i) * PAGE_SIZE_2MB) with h | h
    · rw [h]; exact block_oa_flags_device (512 + i) hq
    · rw [h]; exact block_oa_flags_ram (512 + i) hq

/-- Witness for C2: block 4 with a kernel image at [0x80000, 0x100000). -/
theorem mmu_identity_map_output_address_witness :
    4 < PAGE_TABLE_ENTRIES ∧
    block_output_address (l2_page_table_0_entry 524288 1048576 4) = 4 * PAGE_SIZE_2MB ∧
    block_output_address (l2_page_table_1_entry 4) = PAGE_SIZE_1GB + 4 * PAGE_SIZE_2MB :=
  ⟨by decide,
   (mmu_identity_map_output_address 524288 1048576 4 (by decide)).1,
   (mmu_identity_map_output_address 524288 1048576 4 (by decide)).2⟩

/-- The SCTLR_EL1 value written by MMU::enable_mmu_and_caches (mmu.cpp
lines 183-211): the value read back from SCTLR_EL1 with bit 0 (M, MMU
enable), bit 2 (C, data cache) and bit 12 (I, instruction cache) OR'd
in, in source order. -/
def enable_mmu_sctlr_value (sctlr_val : Nat) : Nat :=
  ((sctlr_val ||| (1 <<< 0)) ||| (1 <<< 2)) ||| (1 <<< 12)

/-- Claim C10: the value MMU::enable_mmu_and_caches writes to SCTLR_EL1
has bits 0, 2 and 12 set, and every other bit equal to the value that
was read — the enable step changes no other SCTLR_EL1 field. -/
theorem mmu_enable_sets_only_m_c_i (sctlr_val : Nat) :
    Nat.testBit (enable_mmu_sctlr_value sctlr_val) 0 = true ∧
    Nat.testBit (enable_mmu_sctlr_value sctlr_val) 2 = true ∧
    Nat.testBit (enable_mmu_sctlr_value sctlr_val) 12 = true ∧
    ∀ j, j ≠ 0 → j ≠ 2 → j ≠ 12 →
      Nat.testBit (enable_mmu_sctlr_value sctlr_val) j = Nat.testBit sctlr_val j := by
  have hval : enable_mmu_sctlr_value sctlr_val
      = ((sctlr_val ||| 2 ^ 0) ||| 2 ^ 2) ||| 2 ^ 12 := rfl
  refine ⟨?_, ?_, ?_, ?_⟩
  · simp only [hval, Nat.testBit_lor, Nat.testBit_two_pow_self]
    simp
  · simp only [hval, Nat.testBit_lor, Nat.testBit_two_pow_self]
    simp
  · simp only [hval, Nat.testBit_lor, Nat.testBit_two_pow_self]
    simp
  · intro j h0 h2 h12
    simp only [hval, Nat.testBit_lor,
      Nat.testBit_two_pow_of_ne (Ne.symm h0),
      Nat.testBit_two_pow_of_ne (Ne.symm h2),
      Nat.testBit_two_pow_of_ne (Ne.symm h12)]
    simp

/-- Witness for C10: reading 0b10 (an untouched bit 1) survives the
enable write. -/
theorem mmu_enable_sets_only_m_c_i_witness :
    Nat.testBit (enable_mmu_sctlr_value 2) 1 = Nat.testBit 2 1 :=
  (mmu_enable_sets_only_m_c_i 2).2.2.2 1 (by decide) (by decide) (by decide)
